import Mathlib

/-!
Verification of the iterative multi-agent refinement controller of the
auto-software-devp repository (src/generate_design.py,
src/generate_requirement_leader.py, src/check_requirement.py,
src/doc_utils.py, src/ask_llm.py).

The development is a shallow embedding of the Python source:

* The data model of a reviewer verdict (the dict produced by
  `parse_review_response` in generate_design.py) is the structure `Verdict`.
* Python `json.loads` is modelled by `json_loads`, a recursive-descent
  parser over the characters of the input, with Python dict semantics
  (duplicate keys: last one wins).  JSON values are the mutual inductives
  `JValue` / `JList` / `JFields`.
* The regular expressions of the source are modelled by explicit scanning
  matchers over character lists, one per pattern, with Python `re.search`
  semantics (leftmost match, attempt at every start position).
* The review/optimize while-loops of `step6_review_optimize_module` and
  `step72_review_optimize_all` are modelled by `review_optimize_go`, a
  fueled tail recursion; fuel `max_calls + 1` is enough because every
  non-terminating iteration strictly increases `call_count`, mirroring the
  Python `while call_count < max_calls` loop exactly.  The external LLM is
  an oracle `env : Nat → Verdict` giving, for each call index, the verdict
  parsed from that call's reply (optimize calls consume an index whose
  reply value is unused by the control flow, as in the source).
* `step71_align_interfaces` is modelled over an oracle `env : Nat → String`
  of raw round replies (the prompt text built from the carried summary does
  not influence the control flow, only the external reply does).

Python-level corner cases that the embedding approximates are noted next to
the definition concerned (ASCII-only `str.isdigit`, rendering of non-string
JSON values carried into string contexts).
-/

/-! ## Character and string utilities (Python semantics) -/

/-- Whitespace for Python `str.strip` and the regex class `\s`
(space, tab, newline, carriage return, vertical tab, form feed). -/
def is_py_space (c : Char) : Bool :=
  c = ' ' || c = '\t' || c = '\n' || c = '\r' || c = '\x0b' || c = '\x0c'

/-- Python `str.strip()` on a character list. -/
def py_strip_chars (cs : List Char) : List Char :=
  ((cs.dropWhile is_py_space).reverse.dropWhile is_py_space).reverse

/-- Python `s.strip()`. -/
def py_strip (s : String) : String := ⟨py_strip_chars s.data⟩

/-- Python `s[:n]` (first n characters). -/
def py_take (s : String) (n : Nat) : String := ⟨s.data.take n⟩

/-- Python `s[-n:]` (last n characters; the whole string when shorter). -/
def py_take_right (s : String) (n : Nat) : String :=
  ⟨s.data.drop (s.data.length - n)⟩

/-- Value of a list of decimal digit characters. -/
def digits_to_nat (ds : List Char) : Nat :=
  ds.foldl (fun a c => a * 10 + (c.toNat - 48)) 0

/-- If `pat` is a prefix of `cs`, the rest of `cs`; otherwise none. -/
def eat_lit : List Char → List Char → Option (List Char)
  | [], cs => some cs
  | _ :: _, [] => none
  | p :: ps, c :: cs => if c = p then eat_lit ps cs else none

/-- Case-insensitive variant of `eat_lit` (regex flag `re.IGNORECASE`). -/
def eat_lit_ci : List Char → List Char → Option (List Char)
  | [], cs => some cs
  | _ :: _, [] => none
  | p :: ps, c :: cs => if c.toLower = p.toLower then eat_lit_ci ps cs else none

/-- Index of the first occurrence of `c`. -/
def first_index (c : Char) : List Char → Option Nat
  | [] => none
  | x :: xs => if x = c then some 0 else (first_index c xs).map (· + 1)

/-- Index of the last occurrence of `c`. -/
def last_index (c : Char) (cs : List Char) : Option Nat :=
  (first_index c cs.reverse).map (fun i => cs.length - 1 - i)

/-! ## The verdict data model

`parse_review_response` in generate_design.py always returns a dict with
the four keys below; the loops consume only these fields. -/

/-- A reviewer verdict: the structured dict
`{"satisfied": …, "issues": […], "suggestions": …, "score": …}` of
generate_design.py.  `score` is an `Int` as in Python (the parser is proved
to only ever produce non-negative values). -/
structure Verdict where
  satisfied : Bool
  issues : List String
  suggestions : String
  score : Int
deriving Repr, DecidableEq, Inhabited

/-- Source: generate_design.py, `is_all_satisfied` — all verdicts have
`satisfied` truthy and an empty `issues` list; `all` of Python is `List.all`
(true on the empty list). -/
def is_all_satisfied (review_parsed_list : List Verdict) : Bool :=
  review_parsed_list.all (fun r => r.satisfied && r.issues.length == 0)

/-- One reviewer's contribution to the merged feedback text:
the blocks emitted by the body of the `for label, parsed in zip(...)` loop
of `merge_suggestions_from_parsed`. -/
def merge_parts_of (label : String) (parsed : Verdict) : List String :=
  if parsed.satisfied && parsed.issues.isEmpty then []
  else
    (if parsed.issues.isEmpty then []
     else ["[" ++ label ++ "] 具体问题：\n" ++
       String.intercalate "\n" (parsed.issues.map (fun iss => "  - " ++ iss))]) ++
    (if parsed.suggestions = "" then []
     else ["[" ++ label ++ "] 综合建议：" ++ parsed.suggestions])

/-- Source: generate_design.py, `merge_suggestions_from_parsed`.
Python `zip` silently truncates to the shorter of the two sequences. -/
def merge_suggestions_from_parsed (parsed_list : List Verdict)
    (reviewer_labels : List String) : String :=
  String.intercalate "\n\n"
    ((reviewer_labels.zip parsed_list).flatMap (fun lp => merge_parts_of lp.1 lp.2))

/-! ## JSON values (the result of Python `json.loads`)

`JValue` is a mutual inductive (rather than one nested in `List`) so that
all functions over it are plain structural recursions that reduce in the
kernel. -/

mutual
/-- A decoded JSON value.  Integer literals decode to `jint`; literals with
a fraction or exponent (and the Python extensions NaN/Infinity) decode to
`jfloat`, which records whether the value is zero (for Python truthiness)
and its literal text (for Python rendering). -/
inductive JValue where
  | jnull
  | jbool (b : Bool)
  | jint (n : Int)
  | jfloat (isZero : Bool) (lit : String)
  | jstr (s : String)
  | jarr (elems : JList)
  | jobj (fields : JFields)

/-- A list of decoded JSON values. -/
inductive JList where
  | nil
  | cons (v : JValue) (tl : JList)

/-- The ordered key/value pairs of a decoded JSON object. -/
inductive JFields where
  | nil
  | cons (k : String) (v : JValue) (tl : JFields)
end

/-- Python dict lookup for a decoded object: with duplicate keys the last
occurrence wins (later assignments overwrite earlier ones). -/
def jfields_get : JFields → String → Option JValue
  | JFields.nil, _ => none
  | JFields.cons k2 v tl, k =>
    match jfields_get tl k with
    | some r => some r
    | none => if k2 = k then some v else none

mutual
/-- Python `repr` of a decoded JSON value (the element-level rendering used
inside containers; strings get single quotes). -/
def py_repr : JValue → String
  | JValue.jnull => "None"
  | JValue.jbool true => "True"
  | JValue.jbool false => "False"
  | JValue.jint n => toString n
  | JValue.jfloat _ lit => lit
  | JValue.jstr s => "\x27" ++ s ++ "\x27"
  | JValue.jarr xs => "[" ++ py_repr_items xs ++ "]"
  | JValue.jobj fs => "\x7b" ++ py_repr_fields fs ++ "\x7d"

/-- Comma-separated `repr` of list elements. -/
def py_repr_items : JList → String
  | JList.nil => ""
  | JList.cons v JList.nil => py_repr v
  | JList.cons v tl => py_repr v ++ ", " ++ py_repr_items tl

/-- Comma-separated `repr` of object entries. -/
def py_repr_fields : JFields → String
  | JFields.nil => ""
  | JFields.cons k v JFields.nil => "\x27" ++ k ++ "\x27: " ++ py_repr v
  | JFields.cons k v tl => "\x27" ++ k ++ "\x27: " ++ py_repr v ++ ", " ++ py_repr_fields tl
end

/-- Python `str` of a decoded JSON value (as when it is interpolated into
an f-string): like `repr`, except a top-level string stays unquoted. -/
def py_render : JValue → String
  | JValue.jstr s => s
  | v => py_repr v

/-- Python truthiness (`bool(x)`) of a decoded JSON value. -/
def py_truthy : JValue → Bool
  | JValue.jnull => false
  | JValue.jbool b => b
  | JValue.jint n => n != 0
  | JValue.jfloat isZero _ => !isZero
  | JValue.jstr s => s != ""
  | JValue.jarr JList.nil => false
  | JValue.jarr (JList.cons _ _) => true
  | JValue.jobj JFields.nil => false
  | JValue.jobj (JFields.cons _ _ _) => true

/-! ## A model of Python `json.loads`

Recursive-descent parser over the characters of the input.  Recursion into
nested values is bounded by a fuel parameter; `json_loads` supplies
`2 * length + 4`, which is more than any input can consume because every
recursive step first consumes at least one character. -/

/-- JSON inter-token whitespace (exactly space, tab, newline, return). -/
def json_skip_ws : List Char → List Char
  | [] => []
  | c :: cs => if c = ' ' || c = '\t' || c = '\n' || c = '\r' then json_skip_ws cs else c :: cs

/-- Value of a hexadecimal digit. -/
def hex_val (c : Char) : Option Nat :=
  if '0' ≤ c && c ≤ '9' then some (c.toNat - 48)
  else if 'a' ≤ c && c ≤ 'f' then some (c.toNat - 87)
  else if 'A' ≤ c && c ≤ 'F' then some (c.toNat - 55)
  else none

/-- Body of a JSON string literal, after the opening quote: returns the
decoded text and the characters after the closing quote.  Strict mode:
raw control characters and unknown escapes are errors. -/
def jstring_aux : List Char → List Char → Option (String × List Char)
  | [], _ => none
  | c :: rest, acc =>
    if c = '"' then some (⟨acc.reverse⟩, rest)
    else if c = '\\' then
      match rest with
      | [] => none
      | e :: rest2 =>
        if e = '"' then jstring_aux rest2 ('"' :: acc)
        else if e = '\\' then jstring_aux rest2 ('\\' :: acc)
        else if e = '/' then jstring_aux rest2 ('/' :: acc)
        else if e = 'b' then jstring_aux rest2 ('\x08' :: acc)
        else if e = 'f' then jstring_aux rest2 ('\x0c' :: acc)
        else if e = 'n' then jstring_aux rest2 ('\n' :: acc)
        else if e = 'r' then jstring_aux rest2 ('\r' :: acc)
        else if e = 't' then jstring_aux rest2 ('\t' :: acc)
        else if e = 'u' then
          match rest2 with
          | h1 :: h2 :: h3 :: h4 :: rest3 =>
            match hex_val h1, hex_val h2, hex_val h3, hex_val h4 with
            | some a, some b, some c2, some d =>
              jstring_aux rest3 (Char.ofNat (a * 4096 + b * 256 + c2 * 16 + d) :: acc)
            | _, _, _, _ => none
          | _ => none
        else none
    else if c.toNat < 32 then none
    else jstring_aux rest (c :: acc)

/-- A JSON number at the head of the input (also the Python-extension
literals `Infinity` and `-Infinity` after a sign).  Grammar:
`-? (0 | [1-9][0-9]*) (\.[0-9]+)? ([eE][+-]?[0-9]+)?`. -/
def jnumber (cs : List Char) : Option (JValue × List Char) :=
  let sign : Bool × List Char :=
    match cs with
    | '-' :: t => (true, t)
    | t => (false, t)
  let neg := sign.1
  match eat_lit ['I', 'n', 'f', 'i', 'n', 'i', 't', 'y'] sign.2 with
  | some rest => some (JValue.jfloat false (if neg then "-inf" else "inf"), rest)
  | none =>
    let ip : Option (List Char × List Char) :=
      match sign.2 with
      | '0' :: t => some (['0'], t)
      | c :: t => if '1' ≤ c && c ≤ '9' then
          let d := (c :: t).span (fun x => x.isDigit)
          some (d.1, d.2)
        else none
      | [] => none
    match ip with
    | none => none
    | some (intDigits, afterInt) =>
      let fr : Option (List Char) × List Char :=
        match afterInt with
        | '.' :: t =>
          let d := t.span (fun x => x.isDigit)
          if d.1.isEmpty then (none, afterInt) else (some d.1, d.2)
        | t => (some [], t)
      match fr.1 with
      | none => none
      | some fracDigits =>
        let hasFrac := !(match afterInt with | '.' :: _ => false | _ => true)
        let ex : Option (List Char) :=
          match fr.2 with
          | 'e' :: _ => some []
          | 'E' :: _ => some []
          | _ => none
        let afterExp : Option (List Char) :=
          match fr.2 with
          | e :: t =>
            if e = 'e' || e = 'E' then
              let t2 := match t with | '+' :: u => u | '-' :: u => u | u => u
              let d := t2.span (fun x => x.isDigit)
              if d.1.isEmpty then none else some d.2
            else some (fr.2)
          | [] => some []
        match afterExp with
        | none => none
        | some rest =>
          if !hasFrac && ex.isNone then
            let v : Int := Int.ofNat (digits_to_nat intDigits)
            some (JValue.jint (if neg then -v else v), rest)
          else
            let isZero := (intDigits ++ fracDigits).all (fun c => c = '0')
            some (JValue.jfloat isZero ⟨cs.take (cs.length - rest.length)⟩, rest)

mutual
/-- One JSON value at the head of the input (leading whitespace allowed). -/
def jparse : Nat → List Char → Option (JValue × List Char)
  | 0, _ => none
  | fuel + 1, cs =>
    match json_skip_ws cs with
    | [] => none
    | c :: rest =>
      if c = '\x7b' then
        match json_skip_ws rest with
        | '\x7d' :: rest2 => some (JValue.jobj JFields.nil, rest2)
        | rest2 =>
          match jmembers fuel rest2 with
          | some (fs, rest3) => some (JValue.jobj fs, rest3)
          | none => none
      else if c = '[' then
        match json_skip_ws rest with
        | ']' :: rest2 => some (JValue.jarr JList.nil, rest2)
        | rest2 =>
          match jelems fuel rest2 with
          | some (xs, rest3) => some (JValue.jarr xs, rest3)
          | none => none
      else if c = '"' then
        match jstring_aux rest [] with
        | some (s, rest2) => some (JValue.jstr s, rest2)
        | none => none
      else if c = 't' then
        (eat_lit ['r', 'u', 'e'] rest).map (fun r => (JValue.jbool true, r))
      else if c = 'f' then
        (eat_lit ['a', 'l', 's', 'e'] rest).map (fun r => (JValue.jbool false, r))
      else if c = 'n' then
        (eat_lit ['u', 'l', 'l'] rest).map (fun r => (JValue.jnull, r))
      else if c = 'N' then
        (eat_lit ['a', 'N'] rest).map (fun r => (JValue.jfloat false "nan", r))
      else if c = 'I' then
        (eat_lit ['n', 'f', 'i', 'n', 'i', 't', 'y'] rest).map
          (fun r => (JValue.jfloat false "inf", r))
      else jnumber (c :: rest)

/-- The members of an object, from after the opening brace (non-empty case),
through the closing brace. -/
def jmembers : Nat → List Char → Option (JFields × List Char)
  | 0, _ => none
  | fuel + 1, cs =>
    match json_skip_ws cs with
    | '"' :: rest =>
      match jstring_aux rest [] with
      | none => none
      | some (key, rest2) =>
        match json_skip_ws rest2 with
        | ':' :: rest3 =>
          match jparse fuel rest3 with
          | none => none
          | some (v, rest4) =>
            match json_skip_ws rest4 with
            | ',' :: rest5 =>
              match jmembers fuel rest5 with
              | some (fs, rest6) => some (JFields.cons key v fs, rest6)
              | none => none
            | '\x7d' :: rest5 => some (JFields.cons key v JFields.nil, rest5)
            | _ => none
        | _ => none
    | _ => none

/-- The elements of an array, from after the opening bracket (non-empty
case), through the closing bracket. -/
def jelems : Nat → List Char → Option (JList × List Char)
  | 0, _ => none
  | fuel + 1, cs =>
    match jparse fuel cs with
    | none => none
    | some (v, rest) =>
      match json_skip_ws rest with
      | ',' :: rest2 =>
        match jelems fuel rest2 with
        | some (xs, rest3) => some (JList.cons v xs, rest3)
        | none => none
      | ']' :: rest2 => some (JList.cons v JList.nil, rest2)
      | _ => none
end

/-- Model of Python `json.loads`: one JSON document, with only whitespace
around it; anything else raises (here: `none`). -/
def json_loads (s : String) : Option JValue :=
  match jparse (2 * s.data.length + 4) s.data with
  | some (v, rest) => if (json_skip_ws rest).isEmpty then some v else none
  | none => none

/-! ## Regex scanners for the fallback tier

Each models one `re.search` of the source: the pattern is tried at every
start position from the left; the first position where it matches wins. -/

/-- The pattern `"score"\s*:\s*"?(\d+)"?` attempted at one position.
The optional quote before the digits can be consumed greedily without
backtracking, because a quote is never a digit. -/
def try_score_at (cs : List Char) : Option Nat :=
  match eat_lit ['"', 's', 'c', 'o', 'r', 'e', '"'] cs with
  | none => none
  | some r1 =>
    match eat_lit [':'] (r1.dropWhile is_py_space) with
    | none => none
    | some r2 =>
      let r3 := r2.dropWhile is_py_space
      let r4 := match r3 with | '"' :: t => t | t => t
      match r4.span (fun x => x.isDigit) with
      | ([], _) => none
      | (ds, _) => some (digits_to_nat ds)

/-- `re.search(r'"score"\s*:\s*"?(\d+)"?', text)`: leftmost match.
Used by the fallback tier of both parse functions (generate_design.py line
150 and generate_requirement_leader.py line 174). -/
def scan_score : List Char → Option Nat
  | [] => none
  | c :: t =>
    match try_score_at (c :: t) with
    | some n => some n
    | none => scan_score t

/-- The pattern `"satisfied"\s*:\s*(true|false)` with `re.IGNORECASE`,
attempted at one position; the result is the captured alternative. -/
def try_satisfied_at (cs : List Char) : Option Bool :=
  match eat_lit_ci ['"', 's', 'a', 't', 'i', 's', 'f', 'i', 'e', 'd', '"'] cs with
  | none => none
  | some r1 =>
    match eat_lit [':'] (r1.dropWhile is_py_space) with
    | none => none
    | some r2 =>
      let r3 := r2.dropWhile is_py_space
      match eat_lit_ci ['t', 'r', 'u', 'e'] r3 with
      | some _ => some true
      | none =>
        match eat_lit_ci ['f', 'a', 'l', 's', 'e'] r3 with
        | some _ => some false
        | none => none

/-- `re.search(r'"satisfied"\s*:\s*(true|false)', text, re.IGNORECASE)`. -/
def scan_satisfied : List Char → Option Bool
  | [] => none
  | c :: t =>
    match try_satisfied_at (c :: t) with
    | some b => some b
    | none => scan_satisfied t

/-- The pattern `"suggestions"\s*:\s*"([^"]*)"` attempted at one position. -/
def try_suggestions_at (cs : List Char) : Option String :=
  match eat_lit ['"', 's', 'u', 'g', 'g', 'e', 's', 't', 'i', 'o', 'n', 's', '"'] cs with
  | none => none
  | some r1 =>
    match eat_lit [':'] (r1.dropWhile is_py_space) with
    | none => none
    | some r2 =>
      match r2.dropWhile is_py_space with
      | '"' :: t =>
        match t.span (fun x => x ≠ '"') with
        | (body, '"' :: _) => some ⟨body⟩
        | _ => none
      | _ => none

/-- `re.search(r'"suggestions"\s*:\s*"([^"]*)"', text, re.DOTALL)` of
generate_requirement_leader.py line 175. -/
def scan_suggestions : List Char → Option String
  | [] => none
  | c :: t =>
    match try_suggestions_at (c :: t) with
    | some s => some s
    | none => scan_suggestions t

/-! ## generate_design.py: `parse_review_response` -/

namespace GenerateDesign

/-- `re.search(r'\{[\s\S]*\}', response)`: the match runs from the first
opening brace to the last closing brace (the leftmost start, then the
greedy longest extent); it exists iff some closing brace follows some
opening brace. -/
def greedy_brace_span (s : String) : Option String :=
  match first_index '\x7b' s.data, last_index '\x7d' s.data with
  | some i, some j =>
    if i < j then some ⟨(s.data.drop i).take (j - i + 1)⟩ else none
  | _, _ => none

/-- `raw.replace("'", '"')` — the single-quote normalization applied to the
matched span before decoding (it also corrupts double-quoted JSON whose
string contents contain an apostrophe). -/
def normalize_quotes (s : String) : String :=
  ⟨s.data.map (fun c => if c = '\x27' then '"' else c)⟩

/-- `score = int(str(score_raw).strip()) if str(score_raw).strip().isdigit()
else 0`:  only values whose Python `str` rendering is (after stripping)
a non-empty run of digits survive; everything else — negatives, floats,
booleans, containers — becomes 0.  `isdigit` is modelled over ASCII digits
(Python also accepts other Unicode decimal digits). -/
def score_of_value : JValue → Int
  | JValue.jint n => if 0 ≤ n then n else 0
  | JValue.jstr s =>
    let t := py_strip_chars s.data
    if t.isEmpty then 0
    else if t.all (fun c => c.isDigit) then Int.ofNat (digits_to_nat t) else 0
  | _ => 0

/-- The elements of a decoded array, rendered as Python renders them in the
f-string that later formats each issue. -/
def jlist_render : JList → List String
  | JList.nil => []
  | JList.cons v tl => py_render v :: jlist_render tl

/-- `issues = data.get("issues", []); if isinstance(issues, str): issues =
[issues] if issues.strip() else []`.  A decoded array is kept element-wise.
A value that is neither a string nor a list is kept by Python as-is and
would make any later `len(issues)` fail; it is modelled as a single opaque
issue. -/
def issues_of_value : JValue → List String
  | JValue.jstr s => if (py_strip_chars s.data).isEmpty then [] else [s]
  | JValue.jarr xs => jlist_render xs
  | v => [py_render v]

/-- `data.get("suggestions", "")`, carried into the string contexts that
consume it (a non-string value is rendered; Python would carry the raw
value and render it at the f-string). -/
def suggestions_of_value : Option JValue → String
  | none => ""
  | some (JValue.jstr s) => s
  | some v => py_render v

/-- The dict built on the success path of the `try` block (lines 135-145
of generate_design.py). -/
def extract_verdict (fields : JFields) : Verdict where
  satisfied := py_truthy ((jfields_get fields "satisfied").getD (JValue.jbool false))
  issues := issues_of_value ((jfields_get fields "issues").getD (JValue.jarr JList.nil))
  suggestions := suggestions_of_value (jfields_get fields "suggestions")
  score := score_of_value ((jfields_get fields "score").getD (JValue.jint 0))

/-- The primary tier (the `try` block): brace span, quote normalization,
`json.loads`, field extraction.  `none` when the span is absent or decoding
fails — Python then falls through to the regex fallback.  A span always
starts with a brace, so a successful decode is always an object. -/
def primary_parse (response : String) : Option Verdict :=
  match greedy_brace_span response with
  | none => none
  | some raw =>
    match json_loads (normalize_quotes raw) with
    | some (JValue.jobj fields) => some (extract_verdict fields)
    | _ => none

/-- The regex fallback (lines 149-159): `issues` is always empty and
`suggestions` is the first 800 characters of the stripped response —
not the empty string of the zero-verdict default. -/
def fallback_verdict (response : String) : Verdict where
  satisfied := scan_satisfied response.data = some true
  issues := []
  suggestions := py_take (py_strip response) 800
  score := Int.ofNat ((scan_score response.data).getD 0)

/-- Source: generate_design.py, `parse_review_response` (lines 113-159).
Total by construction — every exception Python could raise inside the
`try` block is caught and routed to the fallback. -/
def parse_review_response (response : String) : Verdict :=
  if response = "" then ⟨false, [], "", 0⟩
  else
    match primary_parse response with
    | some v => v
    | none => fallback_verdict response

end GenerateDesign

/-! ## generate_requirement_leader.py: `parse_review_response` -/

namespace RequirementLeader

/-- The dict `{"score": …, "suggestions": …}` returned by the leader's
parse function — it never carries `satisfied` or `issues` fields. -/
structure LeaderParsed where
  score : Int
  suggestions : String
deriving Repr, DecidableEq, Inhabited

/-- `re.search(r'\{.*?\}', response, re.DOTALL)`: the lazy match runs from
the first opening brace to the first closing brace after it. -/
def lazy_brace_span (s : String) : Option String :=
  match first_index '\x7b' s.data with
  | none => none
  | some i =>
    match first_index '\x7d' (s.data.drop (i + 1)) with
    | none => none
    | some k => some ⟨(s.data.drop i).take (k + 2)⟩

/-- Python `int(text)` on a string: optional sign, then digits; anything
else raises (`none`).  Surrounding whitespace is ignored. -/
def py_int_of_string (t : String) : Option Int :=
  match py_strip_chars t.data with
  | [] => none
  | '-' :: ds => if ds.isEmpty || !ds.all (fun c => c.isDigit) then none
      else some (-(Int.ofNat (digits_to_nat ds)))
  | '+' :: ds => if ds.isEmpty || !ds.all (fun c => c.isDigit) then none
      else some (Int.ofNat (digits_to_nat ds))
  | ds => if ds.all (fun c => c.isDigit) then some (Int.ofNat (digits_to_nat ds)) else none

/-- The leader's `try` block (lines 163-169): lazy span, `json.loads`
with no quote normalization, then `score = int(str(score_raw).strip())` —
an unparsable rendering raises, aborting the whole block. -/
def primary_parse (response : String) : Option LeaderParsed :=
  match lazy_brace_span response with
  | none => none
  | some raw =>
    match json_loads raw with
    | some (JValue.jobj fields) =>
      match py_int_of_string (py_render ((jfields_get fields "score").getD (JValue.jint 0))) with
      | none => none
      | some sc =>
        some ⟨sc, GenerateDesign.suggestions_of_value (jfields_get fields "suggestions")⟩
    | _ => none

/-- Source: generate_requirement_leader.py, `parse_review_response`
(lines 159-178).  The fallback takes the score from the shared score regex
and the suggestion from the suggestions regex, or else the first 500
characters of the stripped response. -/
def parse_review_response (response : String) : LeaderParsed :=
  match primary_parse response with
  | some r => r
  | none =>
    ⟨Int.ofNat ((scan_score response.data).getD 0),
     (scan_suggestions response.data).getD (py_take (py_strip response) 500)⟩

end RequirementLeader

/-! ## The review→optimize loop (steps 6 and 7.2-7.4 of generate_design.py)

Both loops have the same shape:

    call_count = 0
    while call_count < max_calls:
        collect one verdict per reviewer (breaking out as soon as
            call_count >= max_calls, counting one call per verdict)
        if is_all_satisfied(collected): break
        suggestions = merge_suggestions_from_parsed(collected, labels)
        if not suggestions: break
        if call_count >= max_calls: break
        call_count += 1      # the optimize call
-/

/-- `reviewer_model or "默认模型"` — the display label of a model entry. -/
def display_model (m : Option String) : String := m.getD "默认模型"

/-- REVIEW_OPTIMIZE_FACTOR = 5 (generate_design.py line 43). -/
def REVIEW_OPTIMIZE_FACTOR : Nat := 5

/-- The inner `for reviewer_model in doc_reviewer_models` loop of one round:
collects one verdict per reviewer, breaking out when the budget is reached;
returns the updated call count, the collected verdicts and the collected
labels (appended in the fixed configured order). -/
def review_phase (env : Nat → Verdict) (max_calls : Nat) :
    List (Option String) → Nat → Nat × List Verdict × List String
  | [], call_count => (call_count, [], [])
  | m :: rest, call_count =>
    if max_calls ≤ call_count then (call_count, [], [])
    else
      let r := review_phase env max_calls rest (call_count + 1)
      (r.1, env call_count :: r.2.1, display_model m :: r.2.2)

/-- Which `break` ended the loop: all reviewers satisfied, the merged
feedback empty, or the call budget reached (also covers never entering the
loop). -/
inductive LoopExit where
  | satisfied
  | no_feedback
  | budget
deriving Repr, DecidableEq

/-- Outcome of one review→optimize loop run: the final cumulative call
count, the number of rounds entered, the number of optimize calls issued,
and the exit cause. -/
structure LoopResult where
  calls : Nat
  rounds : Nat
  optimizeCalls : Nat
  exit : LoopExit
deriving Repr, DecidableEq

/-- The `while call_count < max_calls` loop, as a fueled recursion.
Every iteration that recurses strictly increases the call count, so fuel
`max_calls + 1` (supplied by `review_optimize_loop`) can never run out
before the loop condition fails. -/
def review_optimize_go (env : Nat → Verdict) (reviewers : List (Option String))
    (max_calls : Nat) : Nat → Nat → Nat → Nat → LoopResult
  | 0, call_count, rounds, opt => ⟨call_count, rounds, opt, LoopExit.budget⟩
  | fuel + 1, call_count, rounds, opt =>
    if call_count < max_calls then
      match review_phase env max_calls reviewers call_count with
      | (cc2, vs, labels) =>
        if is_all_satisfied vs then ⟨cc2, rounds + 1, opt, LoopExit.satisfied⟩
        else if merge_suggestions_from_parsed vs labels = "" then
          ⟨cc2, rounds + 1, opt, LoopExit.no_feedback⟩
        else if max_calls ≤ cc2 then ⟨cc2, rounds + 1, opt, LoopExit.budget⟩
        else review_optimize_go env reviewers max_calls fuel (cc2 + 1) (rounds + 1) (opt + 1)
    else ⟨call_count, rounds, opt, LoopExit.budget⟩

/-- One run of the review→optimize loop from `call_count = 0`. -/
def review_optimize_loop (env : Nat → Verdict) (reviewers : List (Option String))
    (max_calls : Nat) : LoopResult :=
  review_optimize_go env reviewers max_calls (max_calls + 1) 0 0 0

/-- Source: generate_design.py, `step6_review_optimize_module` — the loop
run for one module, with `max_calls_per_module =
(len(doc_reviewer_models) + 1) * REVIEW_OPTIMIZE_FACTOR` (line 595). -/
def step6_review_optimize_module (env : Nat → Verdict)
    (doc_reviewer_models : List (Option String)) : LoopResult :=
  review_optimize_loop env doc_reviewer_models
    ((doc_reviewer_models.length + 1) * REVIEW_OPTIMIZE_FACTOR)

/-- Source: generate_design.py, `step72_review_optimize_all` — the global
loop, with `max_calls = (len(doc_reviewer_models) + 1) *
REVIEW_OPTIMIZE_FACTOR` (line 782); structurally identical to step 6. -/
def step72_review_optimize_all (env : Nat → Verdict)
    (doc_reviewer_models : List (Option String)) : LoopResult :=
  review_optimize_loop env doc_reviewer_models
    ((doc_reviewer_models.length + 1) * REVIEW_OPTIMIZE_FACTOR)

/-! ## Step 7.1: interface alignment (generate_design.py lines 701-769) -/

/-- ALIGN_ROUNDS = 5 (generate_design.py line 39). -/
def ALIGN_ROUNDS : Nat := 5

/-- The labelled block marker of the round-summary protocol. -/
def SUMMARY_MARKER : String := "【本轮对齐摘要】"

/-- The characters after the first occurrence of `pat`, or none. -/
def find_after (pat : List Char) : List Char → Option (List Char)
  | [] => eat_lit pat []
  | c :: t =>
    match eat_lit pat (c :: t) with
    | some rest => some rest
    | none => find_after pat t

/-- `re.search(r'【本轮对齐摘要】([\s\S]*?)(?:$|【)', response)` followed by
`.strip()`, with the source's fallback `response.strip()[-500:] if response
else ""`.  The lazy group runs to the first following `【` or to the end
(`$` may also match just before a final newline, a difference `.strip()`
erases). -/
def extract_round_summary (response : String) : String :=
  match find_after SUMMARY_MARKER.data response.data with
  | some rest => py_strip ⟨rest.takeWhile (fun c => c ≠ '【')⟩
  | none => if response = "" then "" else py_take_right (py_strip response) 500

/-- The `for i in range(1, ALIGN_ROUNDS + 1)` loop: one generation call per
round; the carried summary is overwritten (never merged) with the text
extracted from that round's reply.  `env n` is the reply of round `n + 1`. -/
def step71_go (env : Nat → String) : Nat → Nat → String → Nat × String
  | 0, calls, summary => (calls, summary)
  | n + 1, calls, _ => step71_go env n (calls + 1) (extract_round_summary (env calls))

/-- Source: generate_design.py, `step71_align_interfaces`: always exactly
ALIGN_ROUNDS generation calls, no convergence check; returns the final
call count and the final carried summary. -/
def step71_align_interfaces (env : Nat → String) : Nat × String :=
  step71_go env ALIGN_ROUNDS 0 ""

/-! ## Candidate selection (step 3 of both pipelines) -/

/-- GENERATE_CANDIDATES = 5 (generate_design.py line 36); the leader
pipeline hard-codes the same five candidates via `range(1, 6)`. -/
def GENERATE_CANDIDATES : Nat := 5

/-- Python tuple comparison `a > b` on pairs: lexicographic, strict. -/
def pair_gt (a b : Int × Int) : Bool :=
  b.1 < a.1 || (a.1 == b.1 && b.2 < a.2)

/-- Python `max(iterable, key=...)`: keeps the first element, replacing it
only when a later element's key is strictly greater — so the FIRST element
attaining the maximal key wins. -/
def py_max_by (key : Nat → Int × Int) : List Nat → Nat → Nat
  | [], best => best
  | x :: xs, best => py_max_by key xs (if pair_gt (key x) (key best) then x else best)

/-- Source: generate_design.py, `step3_optimize_overall` line 354:
`max(range(1, GENERATE_CANDIDATES + 1), key=lambda i:
(scores[i]["total_score"], -scores[i]["issue_count"]))`.
`scores i = (total_score, issue_count)` of candidate `i`. -/
def step3_best_index (scores : Nat → Nat × Nat) : Nat :=
  py_max_by (fun i => (((scores i).1 : Int), -((scores i).2 : Int)))
    [2, 3, 4, 5] 1

/-- Python `max(iterable, key=...)` for an integer key. -/
def py_max_by_int (key : Nat → Int) : List Nat → Nat → Nat
  | [], best => best
  | x :: xs, best => py_max_by_int key xs (if key best < key x then x else best)

/-- Source: generate_requirement_leader.py, `step3_optimize` line 194:
`max(range(1, 6), key=lambda i: scores[i]["total_score"])` — the ranking
key is the total score alone; issue counts are neither tracked nor used. -/
def leader_best_index (total_score : Nat → Nat) : Nat :=
  py_max_by_int (fun i => ((total_score i : Int))) [2, 3, 4, 5] 1

/-! ## Configured model lists (the `main` entry points)

All three entry points (generate_design.py lines 889-900,
check_requirement.py lines 123-142, generate_requirement_leader.py lines
242-253) treat an empty configured model list the same way: print a
warning and substitute the one-element default list `[None]`. -/

/-- `if not models: models = [None]` — the identity-list resolution of all
three `main` functions.  It never rejects; it proceeds with the default. -/
def resolve_models (models : List (Option String)) : List (Option String) :=
  if models.isEmpty then [none] else models

/-! ## Concrete example inputs used by the theorems below -/

/-- A reply whose brace span, after quote normalization, decodes as a
syntactically valid score/satisfied/issues/suggestions structure. -/
def c9_example_input : String :=
  "\x7b\x27score\x27: \x2785\x27, \x27satisfied\x27: true, \x27issues\x27: [\x27missing index\x27], \x27suggestions\x27: \x27add one\x27\x7d"

/-- The decoded fields of `c9_example_input`. -/
def c9_example_fields : JFields :=
  JFields.cons "score" (JValue.jstr "85")
    (JFields.cons "satisfied" (JValue.jbool true)
      (JFields.cons "issues" (JValue.jarr (JList.cons (JValue.jstr "missing index") JList.nil))
        (JFields.cons "suggestions" (JValue.jstr "add one") JFields.nil)))

/-- A reply containing a perfectly valid JSON verdict whose `suggestions`
string contains an apostrophe: the quote normalization of the primary tier
corrupts it, so the parse falls back to the regex tier. -/
def c9_apostrophe_input : String :=
  "\x7b\"suggestions\": \"don\x27t\", \"satisfied\": true, \"score\": 9\x7d"

/-! # Theorems -/

/-! ## Helper lemmas -/

/-- Characterization of `is_all_satisfied` used by several claims. -/
theorem is_all_satisfied_iff (l : List Verdict) :
    is_all_satisfied l = true ↔ ∀ v ∈ l, v.satisfied = true ∧ v.issues = [] := by
  simp [is_all_satisfied, List.all_eq_true, List.length_eq_zero]

/-- Taking each list to the other's length does not change the zip. -/
theorem zip_take_take {α β : Type} :
    ∀ (l1 : List α) (l2 : List β),
      (l1.take l2.length).zip (l2.take l1.length) = l1.zip l2 := by
  intro l1
  induction l1 with
  | nil => intro l2; simp
  | cons a t ih =>
    intro l2
    cases l2 with
    | nil => simp
    | cons b u => simp [ih]

/-- The review phase never decreases the call count. -/
theorem review_phase_fst_ge (env : Nat → Verdict) (mx : Nat) :
    ∀ (ms : List (Option String)) (cc : Nat), cc ≤ (review_phase env mx ms cc).1 := by
  intro ms
  induction ms with
  | nil => intro cc; simp [review_phase]
  | cons m rest ih =>
    intro cc
    simp only [review_phase]
    split
    · exact Nat.le_refl cc
    · have := ih (cc + 1)
      omega

/-- The review phase never pushes the call count past the budget. -/
theorem review_phase_fst_le (env : Nat → Verdict) (mx : Nat) :
    ∀ (ms : List (Option String)) (cc : Nat), cc ≤ mx →
      (review_phase env mx ms cc).1 ≤ mx := by
  intro ms
  induction ms with
  | nil => intro cc h; simpa [review_phase] using h
  | cons m rest ih =>
    intro cc h
    simp only [review_phase]
    split
    · exact h
    · exact ih (cc + 1) (by omega)

/-- Invariant of the fueled loop: the final cumulative call count never
exceeds the budget. -/
theorem review_optimize_go_calls_le (env : Nat → Verdict)
    (reviewers : List (Option String)) (mx : Nat) :
    ∀ (fuel cc rounds opt : Nat), cc ≤ mx →
      (review_optimize_go env reviewers mx fuel cc rounds opt).calls ≤ mx := by
  intro fuel
  induction fuel with
  | zero => intro cc rounds opt h; simpa [review_optimize_go] using h
  | succ n ih =>
    intro cc rounds opt h
    simp only [review_optimize_go]
    split
    · rcases hrp : review_phase env mx reviewers cc with ⟨cc2, vs, labels⟩
      have h2 : cc2 ≤ mx := by
        have := review_phase_fst_le env mx reviewers cc h
        rw [hrp] at this
        exact this
      have h2ge : cc ≤ cc2 := by
        have := review_phase_fst_ge env mx reviewers cc
        rw [hrp] at this
        exact this
      split
      · exact h2
      · split
        · exact h2
        · split
          · exact h2
          · exact ih (cc2 + 1) (rounds + 1) (opt + 1) (by omega)
    · exact h

/-- A full collection pass: when the budget can absorb one call per
reviewer, the phase visits every reviewer in order, collecting the oracle
verdicts of consecutive call indices and the display labels. -/
theorem review_phase_complete (env : Nat → Verdict) (mx : Nat) :
    ∀ (ms : List (Option String)) (cc : Nat), cc + ms.length ≤ mx →
      review_phase env mx ms cc =
        (cc + ms.length, (List.range ms.length).map (fun i => env (cc + i)),
         ms.map display_model) := by
  intro ms
  induction ms with
  | nil => intro cc h; simp [review_phase]
  | cons m rest ih =>
    intro cc h
    have hlt : ¬ mx ≤ cc := by simp only [List.length_cons] at h; omega
    simp only [review_phase, if_neg hlt]
    rw [ih (cc + 1) (by simp only [List.length_cons] at h; omega)]
    refine Prod.ext ?_ (Prod.ext ?_ ?_)
    · simp only [List.length_cons]; omega
    · show env cc :: (List.range rest.length).map (fun i => env (cc + 1 + i)) =
        (List.range (rest.length + 1)).map (fun i => env (cc + i))
      rw [List.range_succ_eq_map]
      simp only [List.map_cons, List.map_map, Nat.add_zero]
      congr 1
      apply List.map_congr_left
      intro i _
      simp only [Function.comp_apply]
      congr 1
      omega
    · simp

/-! ## Claim theorems -/

/-- C1: For every run of the per-module review-optimize loop (step 6) and
of the global review-optimize loop (step 7.2-7.4), with reviewer list of
length r, the cumulative number of generation calls (reviews plus
optimizes, counted across all rounds without resetting) never exceeds
`(r + 1) * REVIEW_OPTIMIZE_FACTOR`; and once the call count has reached the
budget the loop terminates at once, issuing no further call. -/
theorem c1_call_budget_bound :
    (∀ (env : Nat → Verdict) (reviewers : List (Option String)),
      (step6_review_optimize_module env reviewers).calls
          ≤ (reviewers.length + 1) * REVIEW_OPTIMIZE_FACTOR
      ∧ (step72_review_optimize_all env reviewers).calls
          ≤ (reviewers.length + 1) * REVIEW_OPTIMIZE_FACTOR)
    ∧ (∀ (env : Nat → Verdict) (reviewers : List (Option String))
         (fuel cc rounds opt : Nat),
        (reviewers.length + 1) * REVIEW_OPTIMIZE_FACTOR ≤ cc →
        review_optimize_go env reviewers
            ((reviewers.length + 1) * REVIEW_OPTIMIZE_FACTOR)
            (fuel + 1) cc rounds opt
          = ⟨cc, rounds, opt, LoopExit.budget⟩) := by
  constructor
  · intro env reviewers
    constructor
    · exact review_optimize_go_calls_le env reviewers _ _ 0 0 0 (Nat.zero_le _)
    · exact review_optimize_go_calls_le env reviewers _ _ 0 0 0 (Nat.zero_le _)
  · intro env reviewers fuel cc rounds opt h
    simp only [review_optimize_go, if_neg (by omega : ¬ cc < (reviewers.length + 1) * REVIEW_OPTIMIZE_FACTOR)]

/-- C3: `is_all_satisfied` is true iff every verdict has `satisfied = true`
and an empty issues list; the empty sequence yields true; a non-empty
issues list overrides a true satisfied flag. -/
theorem c3_is_all_satisfied_spec :
    is_all_satisfied [] = true
    ∧ (∀ l : List Verdict,
        is_all_satisfied l = true ↔ ∀ v ∈ l, v.satisfied = true ∧ v.issues = [])
    ∧ is_all_satisfied [⟨true, [], "", 0⟩, ⟨true, ["x"], "", 0⟩] = false := by
  refine ⟨rfl, is_all_satisfied_iff, by decide⟩

/-- C5: when the verdicts of the first collection pass are all satisfied
with empty issue lists, both refinement loops stop after exactly one
collection pass — one review call per configured reviewer, zero optimize
calls — with the satisfied (converged) exit. -/
theorem c5_first_round_converged :
    ∀ (env : Nat → Verdict) (reviewers : List (Option String)),
      (∀ i, i < reviewers.length → (env i).satisfied = true ∧ (env i).issues = []) →
      step6_review_optimize_module env reviewers
          = ⟨reviewers.length, 1, 0, LoopExit.satisfied⟩
      ∧ step72_review_optimize_all env reviewers
          = ⟨reviewers.length, 1, 0, LoopExit.satisfied⟩ := by
  intro env reviewers h
  have key : review_optimize_loop env reviewers
      ((reviewers.length + 1) * REVIEW_OPTIMIZE_FACTOR)
      = ⟨reviewers.length, 1, 0, LoopExit.satisfied⟩ := by
    have hmax : 0 < (reviewers.length + 1) * REVIEW_OPTIMIZE_FACTOR := by
      simp only [REVIEW_OPTIMIZE_FACTOR]; omega
    have hroom : 0 + reviewers.length ≤ (reviewers.length + 1) * REVIEW_OPTIMIZE_FACTOR := by
      simp only [REVIEW_OPTIMIZE_FACTOR]; omega
    have hcompl := review_phase_complete env
      ((reviewers.length + 1) * REVIEW_OPTIMIZE_FACTOR) reviewers 0 hroom
    have hsat : is_all_satisfied
        ((List.range reviewers.length).map (fun i => env (0 + i))) = true := by
      rw [is_all_satisfied_iff]
      intro v hv
      simp only [List.mem_map, List.mem_range] at hv
      obtain ⟨i, hi, rfl⟩ := hv
      simpa using h i hi
    simp only [review_optimize_loop, review_optimize_go, if_pos hmax]
    rw [hcompl]
    simp only [hsat, if_pos]
    simp
  exact ⟨key, key⟩

/-- C5 witness: a reviewer pair whose verdicts are always fully satisfied
makes both loops stop after one pass of two review calls. -/
theorem c5_witness :
    step6_review_optimize_module (fun _ => ⟨true, [], "", 90⟩) [none, some "m"]
        = ⟨2, 1, 0, LoopExit.satisfied⟩
    ∧ step72_review_optimize_all (fun _ => ⟨true, [], "", 90⟩) [none, some "m"]
        = ⟨2, 1, 0, LoopExit.satisfied⟩ :=
  c5_first_round_converged (fun _ => ⟨true, [], "", 90⟩) [none, some "m"]
    (fun _ _ => ⟨rfl, rfl⟩)

/-- C6: the alignment step always issues exactly ALIGN_ROUNDS generation
calls whatever the replies contain (no convergence check), and the final
carried summary is the one extracted from the last round's reply alone. -/
theorem c6_align_fixed_rounds :
    ∀ env : Nat → String,
      step71_align_interfaces env
        = (ALIGN_ROUNDS, extract_round_summary (env (ALIGN_ROUNDS - 1))) := by
  intro env
  rfl

/-- C7 counterexample: with two unsatisfied verdicts and a single label the
merge returns normally and the second verdict's issue is silently dropped —
the mismatched lengths are not rejected. -/
theorem c7_counterexample_truncation :
    merge_suggestions_from_parsed
        [⟨false, ["x"], "", 0⟩, ⟨false, ["y"], "", 0⟩] ["A"]
      = "[A] 具体问题：\n  - x" := by
  decide

/-- C7 amended: `merge_suggestions_from_parsed` silently truncates
mismatched-length inputs to the shorter of the two sequences (Python `zip`
semantics); no rejection happens. -/
theorem c7_merge_truncates :
    ∀ (parsed_list : List Verdict) (labels : List String),
      merge_suggestions_from_parsed parsed_list labels
        = merge_suggestions_from_parsed (parsed_list.take labels.length)
            (labels.take parsed_list.length) := by
  intro parsed_list labels
  unfold merge_suggestions_from_parsed
  rw [zip_take_take]

/-- C8 counterexample: an empty configured reviewer list is not rejected —
it resolves to the default one-model list `[None]` and the global
review-optimize loop then runs full rounds with it (here spending its whole
budget of 10 calls on an always-unsatisfied oracle). -/
theorem c8_counterexample_proceeds :
    resolve_models [] = [none]
    ∧ (step72_review_optimize_all (fun _ => ⟨false, ["缺少索引"], "补充", 0⟩)
        (resolve_models [])).calls = 10
    ∧ (step72_review_optimize_all (fun _ => ⟨false, ["缺少索引"], "补充", 0⟩)
        (resolve_models [])).rounds = 5 := by
  refine ⟨rfl, by decide, by decide⟩

/-- C8 amended: an empty configured identity list is replaced at startup by
the one-element default list `[None]` (with a warning) and the pipeline
proceeds with that default; the resolved list is never empty, but nothing
is rejected at construction. -/
theorem c8_empty_list_defaulted :
    resolve_models [] = [none]
    ∧ (∀ models : List (Option String), 1 ≤ (resolve_models models).length) := by
  refine ⟨rfl, ?_⟩
  intro models
  cases models <;> simp [resolve_models]

/-- The primary tier's score extraction never produces a negative value:
only digit-only renderings survive, everything else becomes 0. -/
theorem score_of_value_nonneg (v : JValue) : 0 ≤ GenerateDesign.score_of_value v := by
  cases v with
  | jint n =>
    simp only [GenerateDesign.score_of_value]
    split <;> omega
  | jstr s =>
    simp only [GenerateDesign.score_of_value]
    split
    · exact le_refl 0
    · split
      · exact Int.ofNat_nonneg _
      · exact le_refl 0
  | jnull => exact le_refl 0
  | jbool b => exact le_refl 0
  | jfloat z l => exact le_refl 0
  | jarr xs => exact le_refl 0
  | jobj fs => exact le_refl 0

/-- Any verdict the primary tier returns has a non-negative score. -/
theorem primary_parse_score_nonneg (s : String) (v : Verdict)
    (h : GenerateDesign.primary_parse s = some v) : 0 ≤ v.score := by
  unfold GenerateDesign.primary_parse at h
  split at h
  · exact absurd h (by simp)
  · split at h
    · simp only [Option.some.injEq] at h
      subst h
      exact score_of_value_nonneg _
    · exact absurd h (by simp)

/-- C10: for every input string, `parse_review_response` of
generate_design.py returns a non-negative score — the primary tier keeps
only digit-only score values and the fallback regex matches only unsigned
digit runs — while scores above 100 do pass through un-clamped. -/
theorem c10_score_nonnegative :
    (∀ s : String, 0 ≤ (GenerateDesign.parse_review_response s).score)
    ∧ (GenerateDesign.parse_review_response "\x7b\"score\": 999\x7d").score = 999 := by
  constructor
  · intro s
    unfold GenerateDesign.parse_review_response
    split
    · exact le_refl 0
    · split
      · rename_i v hv
        exact primary_parse_score_nonneg s v hv
      · exact Int.ofNat_nonneg _
  · decide

/-- Python tuple comparison, arithmetically. -/
theorem pair_gt_true_iff (a b : Int × Int) :
    pair_gt a b = true ↔ (b.1 < a.1 ∨ (a.1 = b.1 ∧ b.2 < a.2)) := by
  simp [pair_gt, Bool.or_eq_true, Bool.and_eq_true, decide_eq_true_eq, beq_iff_eq]

/-- Negated Python tuple comparison, arithmetically. -/
theorem pair_gt_false_iff (a b : Int × Int) :
    pair_gt a b = false ↔ (a.1 < b.1 ∨ (a.1 = b.1 ∧ a.2 ≤ b.2)) := by
  rw [← Bool.not_eq_true, pair_gt_true_iff]
  omega

/-- The first-maximum behaviour of `max(range(1, 6), key=...)` with a pair
key: the result is one of 1..5, no candidate's key strictly beats it, and
among candidates with the very same key it is the lowest index. -/
theorem py_max_by_five_spec (key : Nat → Int × Int) :
    (1 ≤ py_max_by key [2, 3, 4, 5] 1 ∧ py_max_by key [2, 3, 4, 5] 1 ≤ 5)
    ∧ (∀ j, 1 ≤ j → j ≤ 5 →
        pair_gt (key j) (key (py_max_by key [2, 3, 4, 5] 1)) = false)
    ∧ (∀ j, 1 ≤ j → j ≤ 5 → key j = key (py_max_by key [2, 3, 4, 5] 1) →
        py_max_by key [2, 3, 4, 5] 1 ≤ j) := by
  simp only [py_max_by]
  split_ifs <;>
    refine ⟨by omega, fun j hj1 hj2 => ?_, fun j hj1 hj2 hk => ?_⟩ <;>
    interval_cases j <;>
    first
      | (simp only [pair_gt_true_iff, pair_gt_false_iff, Prod.ext_iff, eq_self_iff_true,
            true_and, and_true, le_refl, or_true, true_or] at *
         omega)
      | simp only [pair_gt_true_iff, pair_gt_false_iff, Prod.ext_iff, eq_self_iff_true,
            true_and, and_true, le_refl, or_true, true_or] at *

/-- The first-maximum behaviour of `max(range(1, 6), key=...)` with an
integer key. -/
theorem py_max_by_int_five_spec (key : Nat → Int) :
    (1 ≤ py_max_by_int key [2, 3, 4, 5] 1 ∧ py_max_by_int key [2, 3, 4, 5] 1 ≤ 5)
    ∧ (∀ j, 1 ≤ j → j ≤ 5 → key j ≤ key (py_max_by_int key [2, 3, 4, 5] 1))
    ∧ (∀ j, 1 ≤ j → j ≤ 5 → key j = key (py_max_by_int key [2, 3, 4, 5] 1) →
        py_max_by_int key [2, 3, 4, 5] 1 ≤ j) := by
  simp only [py_max_by_int]
  split_ifs <;>
    refine ⟨by omega, fun j hj1 hj2 => ?_, fun j hj1 hj2 hk => ?_⟩ <;>
    interval_cases j <;>
    omega

/-- C2 counterexample: the leader pipeline's selector ranks by total score
alone.  On the claim's tie example — candidates 1 and 2 tied at 80 with
issue counts 3 and 1 — it returns candidate 1 (the first maximal one), not
candidate 2 as the claim requires. -/
theorem c2_counterexample_leader_tie :
    (fun i => if i = 1 then 80 else if i = 2 then 80 else 0 : Nat → Nat) 1
        = (fun i => if i = 1 then 80 else if i = 2 then 80 else 0 : Nat → Nat) 2
    ∧ leader_best_index (fun i => if i = 1 then 80 else if i = 2 then 80 else 0) = 1
    ∧ leader_best_index (fun i => if i = 1 then 80 else if i = 2 then 80 else 0) ≠ 2 := by
  refine ⟨rfl, by decide, by decide⟩

/-- C2 amended: the design pipeline's selector (step3_optimize_overall)
picks a candidate with maximal totalScore, minimal issueCount among
totalScore ties, and the lowest candidateId among full ties — including the
claim's two examples.  The leader pipeline's selector (step3_optimize of
generate_requirement_leader.py) ranks by maximal totalScore only, with the
lowest candidateId among ties; issue counts are not tracked there. -/
theorem c2_selection_ranking :
    (∀ scores : Nat → Nat × Nat,
      (1 ≤ step3_best_index scores ∧ step3_best_index scores ≤ 5)
      ∧ (∀ j, 1 ≤ j → j ≤ 5 →
          (scores j).1 ≤ (scores (step3_best_index scores)).1)
      ∧ (∀ j, 1 ≤ j → j ≤ 5 →
          (scores j).1 = (scores (step3_best_index scores)).1 →
          (scores (step3_best_index scores)).2 ≤ (scores j).2)
      ∧ (∀ j, 1 ≤ j → j ≤ 5 →
          (scores j).1 = (scores (step3_best_index scores)).1 →
          (scores j).2 = (scores (step3_best_index scores)).2 →
          step3_best_index scores ≤ j))
    ∧ (∀ total_score : Nat → Nat,
      (1 ≤ leader_best_index total_score ∧ leader_best_index total_score ≤ 5)
      ∧ (∀ j, 1 ≤ j → j ≤ 5 →
          total_score j ≤ total_score (leader_best_index total_score))
      ∧ (∀ j, 1 ≤ j → j ≤ 5 →
          total_score j = total_score (leader_best_index total_score) →
          leader_best_index total_score ≤ j))
    ∧ step3_best_index (fun i => if i = 1 then (90, 2) else if i = 2 then (90, 0)
        else if i = 3 then (95, 5) else (0, 0)) = 3
    ∧ step3_best_index (fun i => if i = 1 then (80, 3) else if i = 2 then (80, 1)
        else (0, 0)) = 2 := by
  refine ⟨?_, ?_, by decide, by decide⟩
  · intro scores
    obtain ⟨hb, hgt, htie⟩ := py_max_by_five_spec
      (fun i => (((scores i).1 : Int), -((scores i).2 : Int)))
    simp only [step3_best_index]
    refine ⟨hb, ?_, ?_, ?_⟩
    · intro j hj1 hj2
      have h := hgt j hj1 hj2
      rw [pair_gt_false_iff] at h
      dsimp only at h
      omega
    · intro j hj1 hj2 heq
      have h := hgt j hj1 hj2
      rw [pair_gt_false_iff] at h
      dsimp only at h
      omega
    · intro j hj1 hj2 heq1 heq2
      refine htie j hj1 hj2 ?_
      rw [Prod.mk.injEq]
      omega
  · intro total_score
    obtain ⟨hb, hle, htie⟩ := py_max_by_int_five_spec
      (fun i => ((total_score i : Int)))
    simp only [leader_best_index]
    refine ⟨hb, ?_, ?_⟩
    · intro j hj1 hj2
      have h := hle j hj1 hj2
      omega
    · intro j hj1 hj2 heq
      refine htie j hj1 hj2 ?_
      omega

/-- C2 witness: the ranking properties applied at the claim's second
example map (candidates 1 and 2 tied at 80, issue counts 3 and 1). -/
theorem c2_witness_ranking :
    ((fun i => if i = 1 then (80, 3) else if i = 2 then (80, 1) else (0, 0) : Nat → Nat × Nat) 1).1
        ≤ ((fun i => if i = 1 then (80, 3) else if i = 2 then (80, 1) else (0, 0) : Nat → Nat × Nat)
            (step3_best_index (fun i => if i = 1 then (80, 3) else if i = 2 then (80, 1) else (0, 0)))).1 :=
  (c2_selection_ranking.1
      (fun i => if i = 1 then (80, 3) else if i = 2 then (80, 1) else (0, 0))).2.1
    1 (by decide) (by decide)

/-- C4 counterexample: on the malformed input "garbage" the design parser
does not return the zero-verdict default — the fallback tier fills
`suggestions` with the first 800 characters of the stripped reply. -/
theorem c4_counterexample_garbage :
    GenerateDesign.parse_review_response "garbage" = ⟨false, [], "garbage", 0⟩
    ∧ GenerateDesign.parse_review_response "garbage" ≠ ⟨false, [], "", 0⟩ := by
  refine ⟨by decide, by decide⟩

/-- C4 amended: both parse functions are total (never raise — every
exception inside the `try` tier is caught and routed to the fallback).
The empty reply returns the zero-verdict default.  Any other reply whose
primary tier fails gets the regex fallback: in generate_design.py a verdict
with `satisfied` from the satisfied-regex, empty `issues`, `suggestions`
equal to the first 800 characters of the stripped reply (not the empty
string), and `score` from the unsigned-digits score-regex; in
generate_requirement_leader.py a score/suggestions pair with the captured
suggestion or the first 500 stripped characters. -/
theorem c4_fallback_not_zero_default :
    GenerateDesign.parse_review_response "" = ⟨false, [], "", 0⟩
    ∧ (∀ s : String, s ≠ "" → GenerateDesign.primary_parse s = none →
        GenerateDesign.parse_review_response s
          = ⟨scan_satisfied s.data = some true, [], py_take (py_strip s) 800,
             Int.ofNat ((scan_score s.data).getD 0)⟩)
    ∧ (∀ s : String, RequirementLeader.primary_parse s = none →
        RequirementLeader.parse_review_response s
          = ⟨Int.ofNat ((scan_score s.data).getD 0),
             (scan_suggestions s.data).getD (py_take (py_strip s) 500)⟩) := by
  refine ⟨rfl, ?_, ?_⟩
  · intro s hne hp
    unfold GenerateDesign.parse_review_response
    rw [if_neg hne, hp]
    rfl
  · intro s hp
    unfold RequirementLeader.parse_review_response
    rw [hp]

/-- C9 counterexample: a reply that IS one syntactically valid
score/satisfied/issues/suggestions JSON object, whose `suggestions` string
contains an apostrophe.  The quote normalization corrupts it, decoding
fails, and the fallback returns the whole reply as `suggestions` instead of
recovering the field value. -/
theorem c9_counterexample_apostrophe :
    (GenerateDesign.parse_review_response c9_apostrophe_input).suggestions
        = c9_apostrophe_input
    ∧ (GenerateDesign.parse_review_response c9_apostrophe_input).suggestions
        ≠ "don\x27t"
    ∧ (GenerateDesign.parse_review_response c9_apostrophe_input).score = 9 := by
  refine ⟨by decide, by decide, by decide⟩

/-- C9 amended: whenever the span from the first opening brace to the last
closing brace decodes — after quote normalization — as a JSON object, the
primary tier recovers the fields exactly as specified: `satisfied` is the
truthiness of the `satisfied` value (default false), `score` keeps only
digit-only values (else 0), a string-valued `issues` is wrapped into a
one-element list (empty when blank), an absent `issues` gives the empty
list, an array-valued `issues` is kept element-wise, and `suggestions`
defaults to the empty string. -/
theorem c9_primary_field_recovery :
    ∀ (s raw : String) (fields : JFields),
      GenerateDesign.greedy_brace_span s = some raw →
      json_loads (GenerateDesign.normalize_quotes raw) = some (JValue.jobj fields) →
      (GenerateDesign.parse_review_response s).satisfied
          = py_truthy ((jfields_get fields "satisfied").getD (JValue.jbool false))
      ∧ (GenerateDesign.parse_review_response s).score
          = GenerateDesign.score_of_value ((jfields_get fields "score").getD (JValue.jint 0))
      ∧ (jfields_get fields "issues" = none →
          (GenerateDesign.parse_review_response s).issues = [])
      ∧ (∀ t : String, jfields_get fields "issues" = some (JValue.jstr t) →
          (GenerateDesign.parse_review_response s).issues
            = if (py_strip_chars t.data).isEmpty then [] else [t])
      ∧ (∀ xs : JList, jfields_get fields "issues" = some (JValue.jarr xs) →
          (GenerateDesign.parse_review_response s).issues = GenerateDesign.jlist_render xs)
      ∧ (jfields_get fields "suggestions" = none →
          (GenerateDesign.parse_review_response s).suggestions = "")
      ∧ (∀ t : String, jfields_get fields "suggestions" = some (JValue.jstr t) →
          (GenerateDesign.parse_review_response s).suggestions = t) := by
  intro s raw fields hspan hjson
  have hne : s ≠ "" := by
    intro h
    subst h
    simp [GenerateDesign.greedy_brace_span, first_index] at hspan
  have hp : GenerateDesign.primary_parse s
      = some (GenerateDesign.extract_verdict fields) := by
    unfold GenerateDesign.primary_parse
    rw [hspan]
    dsimp only
    rw [hjson]
  have hv : GenerateDesign.parse_review_response s
      = GenerateDesign.extract_verdict fields := by
    unfold GenerateDesign.parse_review_response
    rw [if_neg hne, hp]
  rw [hv]
  refine ⟨rfl, rfl, ?_, ?_, ?_, ?_, ?_⟩
  · intro h
    simp [GenerateDesign.extract_verdict, h, GenerateDesign.issues_of_value,
      GenerateDesign.jlist_render]
  · intro t h
    simp [GenerateDesign.extract_verdict, h, GenerateDesign.issues_of_value]
  · intro xs h
    simp [GenerateDesign.extract_verdict, h, GenerateDesign.issues_of_value]
  · intro h
    simp [GenerateDesign.extract_verdict, h, GenerateDesign.suggestions_of_value]
  · intro t h
    simp [GenerateDesign.extract_verdict, h, GenerateDesign.suggestions_of_value]

/-- C9 witness: the field recovery applied to a concrete single-quoted
reply carrying score 85, satisfied true, one issue and a suggestion. -/
theorem c9_witness_recovery :
    (GenerateDesign.parse_review_response c9_example_input).satisfied = true
    ∧ (GenerateDesign.parse_review_response c9_example_input).score = 85
    ∧ (GenerateDesign.parse_review_response c9_example_input).issues = ["missing index"]
    ∧ (GenerateDesign.parse_review_response c9_example_input).suggestions = "add one" := by
  have h := c9_primary_field_recovery c9_example_input c9_example_input
    c9_example_fields rfl rfl
  exact ⟨h.1.trans rfl, h.2.1.trans rfl,
    (h.2.2.2.2.1 (JList.cons (JValue.jstr "missing index") JList.nil) rfl).trans rfl,
    (h.2.2.2.2.2.2 "add one" rfl).trans rfl⟩
